import Mathlib

/-!
Verification of the tiling / job-orchestration / aggregation pipeline of
`regrid_high_res_v1_01.py` (function `regrid_high_res` and its inner helpers).

The Python code is shallowly embedded: grid coordinates and data values are
rationals (the floats of the source carry no rounding-relevant arithmetic
here, only comparisons, min/max and truncation on conversion to an integer
dtype), data arrays are explicit coordinate lists with a value grid, and the
generated bash scripts are lists of structured lines.
-/

namespace Regrid

/-- A tile `[latMin, latMax, lonMin, lonMax]` as built by
`_make_cases_list_global` (Python builds a 4-element list; we use a record).
The Python entries are ints; they are embedded into `ℚ` because they are later
compared against float coordinates. -/
structure Tile where
  latMin : ℚ
  latMax : ℚ
  lonMin : ℚ
  lonMax : ℚ
deriving DecidableEq, Repr

/-- The bounding box of a source data array: `min/max(da_source.lat.data)` and
`min/max(da_source.lon.data)` as computed at the top of
`_make_cases_list_source`. -/
structure BBox where
  latMin : ℚ
  latMax : ℚ
  lonMin : ℚ
  lonMax : ℚ
deriving DecidableEq, Repr

/-- Python `range(a, b, s)` for a positive step `s`: the values `a + s*k` for
`k < ceil((b-a)/s)` (empty when `b ≤ a`). -/
def pyRange (a b : ℤ) (s : ℕ) : List ℤ :=
  (List.range (((b - a).toNat + s - 1) / s)).map fun (k : ℕ) => a + (s : ℤ) * (k : ℤ)

/-- `_make_cases_list_global`: the cartesian product of latitude starts
`range(-90, 90, size_tiles)` and longitude starts `range(-180, 180, size_tiles)`
(lat outer, lon inner, as in `itertools.product`), each start paired with
`start + size_tiles` as the opposite edge. -/
def makeCasesListGlobal (sizeTiles : ℕ) : List Tile :=
  ((pyRange (-90) 90 sizeTiles) ×ˢ (pyRange (-180) 180 sizeTiles)).map fun p =>
    { latMin := (p.1 : ℚ)
      latMax := ((p.1 + sizeTiles : ℤ) : ℚ)
      lonMin := (p.2 : ℚ)
      lonMax := ((p.2 + sizeTiles : ℤ) : ℚ) }

/-- The four-edge test of the selection loop in `_make_cases_list_source`
(lines `i[1] >= lat_min & i[0] <= lat_max & i[3] >= lon_min & i[2] <= lon_max`,
where `i = [latMin, latMax, lonMin, lonMax]`). -/
def touchesBBox (t : Tile) (b : BBox) : Bool :=
  decide (t.latMax ≥ b.latMin) && decide (t.latMin ≤ b.latMax) &&
  decide (t.lonMax ≥ b.lonMin) && decide (t.lonMin ≤ b.lonMax)

/-- The selection loop of `_make_cases_list_source`: iterate over the global
tile list appending every tile that passes the four-edge test, i.e. a filter. -/
def selectTilesForExtent (globalTiles : List Tile) (b : BBox) : List Tile :=
  globalTiles.filter (fun t => touchesBBox t b)

/-- Python `max(l)` for a nonempty list (`max` raises on an empty one; the
empty case never arises under the nonemptiness hypotheses used below). -/
def pyMax (l : List ℚ) : ℚ :=
  match l with
  | [] => 0
  | x :: xs => xs.foldl max x

/-- Python `min(l)` for a nonempty list. -/
def pyMin (l : List ℚ) : ℚ :=
  match l with
  | [] => 0
  | x :: xs => xs.foldl min x

/-- A data array: latitude coordinates (descending in actual use), longitude
coordinates (ascending in actual use), and a grid of values, one row per
latitude, one entry per longitude; `none` embeds NaN / missing. -/
structure DSet where
  lat : List ℚ
  lon : List ℚ
  vals : List (List (Option ℚ))
deriving DecidableEq, Repr

/-- The bounding box of a source data array, as read off by
`_make_cases_list_source` via `min`/`max` over the coordinate data. -/
def bboxOf (ds : DSet) : BBox :=
  { latMin := pyMin ds.lat
    latMax := pyMax ds.lat
    lonMin := pyMin ds.lon
    lonMax := pyMax ds.lon }

/-- `_make_cases_list_source(da_source, size_tiles)`: global tiles filtered by
the four-edge test against the source bounding box. -/
def makeCasesListSource (daSource : DSet) (sizeTiles : ℕ) : List Tile :=
  selectTilesForExtent (makeCasesListGlobal sizeTiles) (bboxOf daSource)

/-- Ceiling division collapses to exact division when the divisor divides. -/
theorem ceilDiv_eq_div_of_dvd (n s : ℕ) (hs : 0 < s) (hd : s ∣ n) :
    (n + s - 1) / s = n / s := by
  obtain ⟨k, rfl⟩ := hd
  have h1 : s * k + s - 1 = s - 1 + s * k := by omega
  rw [h1, Nat.add_mul_div_left _ _ hs, Nat.div_eq_of_lt (by omega),
    Nat.mul_div_cancel_left _ hs]
  omega

theorem length_pyRange (a b : ℤ) (s : ℕ) :
    (pyRange a b s).length = ((b - a).toNat + s - 1) / s := by
  rw [pyRange, List.length_map, List.length_range]

theorem mem_pyRange (a b : ℤ) (s : ℕ) (x : ℤ) :
    x ∈ pyRange a b s ↔
      ∃ k : ℕ, k < ((b - a).toNat + s - 1) / s ∧ x = a + s * k := by
  constructor
  · intro h
    obtain ⟨k, hk, rfl⟩ := List.mem_map.mp h
    exact ⟨k, List.mem_range.mp hk, rfl⟩
  · rintro ⟨k, hk, rfl⟩
    exact List.mem_map.mpr ⟨k, List.mem_range.mpr hk, rfl⟩

end Regrid

namespace Regrid

/-- C1: the selection loop of `_make_cases_list_source` returns exactly the
tiles that satisfy the closed-interval four-edge test: for every list of
global tiles and every source bounding box, a tile is in the output iff it is
in the input list and satisfies
`latMax ≥ bbox.latMin ∧ latMin ≤ bbox.latMax ∧ lonMax ≥ bbox.lonMin ∧
lonMin ≤ bbox.lonMax` — and the full `_make_cases_list_source` is this
selection applied to the global tile list and the source's min/max bounding
box. -/
theorem selectTilesForExtent_exact (globalTiles : List Tile) (b : BBox)
    (t : Tile) (ds : DSet) (s : ℕ) :
    (t ∈ selectTilesForExtent globalTiles b ↔
      t ∈ globalTiles ∧
        (t.latMax ≥ b.latMin ∧ t.latMin ≤ b.latMax ∧
         t.lonMax ≥ b.lonMin ∧ t.lonMin ≤ b.lonMax)) ∧
      (t ∈ makeCasesListSource ds s ↔
        t ∈ makeCasesListGlobal s ∧
          (t.latMax ≥ (bboxOf ds).latMin ∧ t.latMin ≤ (bboxOf ds).latMax ∧
           t.lonMax ≥ (bboxOf ds).lonMin ∧ t.lonMin ≤ (bboxOf ds).lonMax)) := by
  constructor
  · simp [selectTilesForExtent, List.mem_filter, touchesBBox, and_assoc]
  · simp [makeCasesListSource, selectTilesForExtent, List.mem_filter,
      touchesBBox, and_assoc]

/-- C8: for every positive `sizeTiles` dividing 180 and 360,
`_make_cases_list_global` returns `(180/sizeTiles) * (360/sizeTiles)` tiles,
each exactly `sizeTiles` wide and tall, with latitude starts `-90 + k*sizeTiles`
and longitude starts `-180 + j*sizeTiles`. -/
theorem makeCasesListGlobal_count_shape (s : ℕ) (hs : 0 < s)
    (h180 : s ∣ 180) (h360 : s ∣ 360) :
    (makeCasesListGlobal s).length = (180 / s) * (360 / s) ∧
      ∀ t ∈ makeCasesListGlobal s,
        t.latMax = t.latMin + s ∧ t.lonMax = t.lonMin + s ∧
        (∃ k : ℕ, k < 180 / s ∧ t.latMin = -90 + (s : ℚ) * k) ∧
        (∃ j : ℕ, j < 360 / s ∧ t.lonMin = -180 + (s : ℚ) * j) := by
  have e180 : ((90 : ℤ) - (-90)).toNat = 180 := by decide
  have e360 : ((180 : ℤ) - (-180)).toNat = 360 := by decide
  constructor
  · have hlat : (pyRange (-90) 90 s).length = 180 / s := by
      rw [length_pyRange, e180]
      exact ceilDiv_eq_div_of_dvd 180 s hs h180
    have hlon : (pyRange (-180) 180 s).length = 360 / s := by
      rw [length_pyRange, e360]
      exact ceilDiv_eq_div_of_dvd 360 s hs h360
    simp [makeCasesListGlobal, List.length_product, hlat, hlon]
  · intro t ht
    simp only [makeCasesListGlobal, List.mem_map] at ht
    obtain ⟨p, hp, rfl⟩ := ht
    rw [List.mem_product] at hp
    obtain ⟨hp1, hp2⟩ := hp
    rw [mem_pyRange] at hp1 hp2
    obtain ⟨k, hk, hx⟩ := hp1
    obtain ⟨j, hj, hy⟩ := hp2
    rw [e180, ceilDiv_eq_div_of_dvd 180 s hs h180] at hk
    rw [e360, ceilDiv_eq_div_of_dvd 360 s hs h360] at hj
    refine ⟨by push_cast; ring, by push_cast; ring, ⟨k, hk, ?_⟩, ⟨j, hj, ?_⟩⟩
    · rw [hx]; push_cast; ring
    · rw [hy]; push_cast; ring

/-- C8 witness: at `sizeTiles = 30` the global grid has `6 * 12 = 72` tiles. -/
theorem makeCasesListGlobal_count_shape_witness :
    (makeCasesListGlobal 30).length = (180 / 30) * (360 / 30) :=
  (makeCasesListGlobal_count_shape 30 (by norm_num) (by norm_num)
    (by norm_num)).1

/-- The `.seconds` field of the Python `timedelta` computed by
`_get_lastmod_diff` (now minus the newest modification time of the output
directory): `timedelta` normalizes a nonnegative duration into whole days plus
a sub-day `seconds` component in `[0, 86400)`, so `.seconds` is the total age
in whole seconds modulo 86400. -/
def lastmodDiffSecondsField (ageSeconds : ℕ) : ℕ :=
  ageSeconds % 86400

/-- Exit condition of the quiescence loop of `_run_bash_script`
(`while _get_lastmod_diff(dir_out + 'interm/out/').seconds < 120: sleep(2)`):
the loop reports done exactly when the `.seconds` field is not below 120. -/
def quiescenceDone (ageSeconds : ℕ) : Bool :=
  decide (120 ≤ lastmodDiffSecondsField ageSeconds)

/-- The count-parity loop of `_run_bash_script`
(`while len(listdir(target)) != len(listdir(out)): sleep(5)`), observing a
trace of (target-input file count, output file count) pairs, one per poll: the
quiescence phase below it is reached exactly when some poll sees equal
counts. -/
def reachesQuiescencePhase (tr : ℕ → ℕ × ℕ) : Prop :=
  ∃ k, (tr k).1 = (tr k).2

/-- C4: while the target-input and output file counts are unequal the
quiescence phase is never reached, regardless of file ages; once reached, the
quiescence check reports done at a newest-file age of 121 seconds and
not-yet-done at 119 seconds. -/
theorem orchestratorCompletionHeuristic (tr : ℕ → ℕ × ℕ)
    (hneq : ∀ k, (tr k).1 ≠ (tr k).2) :
    ¬ reachesQuiescencePhase tr ∧
      quiescenceDone 121 = true ∧ quiescenceDone 119 = false := by
  refine ⟨?_, by decide, by decide⟩
  rintro ⟨k, hk⟩
  exact hneq k hk

/-- C4 witness: a trace stuck at counts (0, 1) never reaches the quiescence
phase. -/
theorem orchestratorCompletionHeuristic_witness :
    ¬ reachesQuiescencePhase (fun _ => (0, 1)) ∧
      quiescenceDone 121 = true ∧ quiescenceDone 119 = false :=
  orchestratorCompletionHeuristic (fun _ => (0, 1)) (fun _ => Nat.zero_ne_one)

/-- C9: the quiescence check reads only the sub-day `.seconds` component of
the modification-age timedelta, so at an age of `N` whole days plus a residual
`r < 120` seconds (`N ≥ 1`) it reports not-yet-done even though the true
elapsed age is far above the 120-second threshold. -/
theorem quiescence_dropsWholeDays (N r : ℕ) (hN : 1 ≤ N) (hr : r < 120) :
    120 ≤ N * 86400 + r ∧ quiescenceDone (N * 86400 + r) = false := by
  constructor
  · omega
  · simp only [quiescenceDone, lastmodDiffSecondsField, decide_eq_false_iff_not]
    omega

/-- C9 witness: at 24 hours plus 60 seconds the check still reports
not-yet-done. -/
theorem quiescence_dropsWholeDays_witness :
    120 ≤ 1 * 86400 + 60 ∧ quiescenceDone (1 * 86400 + 60) = false :=
  quiescence_dropsWholeDays 1 60 (by decide) (by decide)

/-- A line of the generated dispatch script `regridding.sh`: the shebang, the
separating blank line, or an `sbatch -Q -W <path>` submission, backgrounded
(trailing `&`) or not. -/
inductive BashLine where
  | shebang : BashLine
  | blank : BashLine
  | submit (path : String) (background : Bool) : BashLine
deriving DecidableEq, Repr

/-- Is this line a scheduler submission at all? -/
def isSubmit : BashLine → Bool
  | .submit _ _ => true
  | _ => false

/-- Is this line a submission that blocks the calling script (`sbatch -W`
without a trailing `&`)? -/
def isBlockingSubmit : BashLine → Bool
  | .submit _ background => !background
  | _ => false

/-- The dispatch script written by `_make_bash_scripts` (lines 218-225):
shebang, blank line, `sbatch -Q -W <dir>interm/bash/<sub> &` for every
subscript except the last (`list_sub_files[:-1]`), then
`sbatch -Q -W <dir>interm/bash/<last>` with no `&` for the last
(`list_sub_files[-1]`). On an empty subscript list the Python `[-1]` indexing
raises; the `none` branch is dead under the nonemptiness hypothesis used
below. -/
def dispatchScript (dirOut : String) (subs : List String) : List BashLine :=
  [BashLine.shebang, BashLine.blank] ++
    (subs.dropLast.map fun i =>
      BashLine.submit (dirOut ++ "interm/bash/" ++ i) true) ++
    (match subs.getLast? with
     | some l => [BashLine.submit (dirOut ++ "interm/bash/" ++ l) false]
     | none => [])

/-- C5: for every nonempty batch list the dispatch script submits every batch,
exactly one submission blocks — the one for the last batch — and every other
batch is submitted backgrounded (non-blocking). -/
theorem dispatchScript_lastBlocks (dirOut : String) (subs : List String)
    (h : subs ≠ []) :
    ((dispatchScript dirOut subs).filter isSubmit).length = subs.length ∧
      (dispatchScript dirOut subs).filter isBlockingSubmit =
        [BashLine.submit (dirOut ++ "interm/bash/" ++ subs.getLast h) false] ∧
      ∀ i ∈ subs.dropLast,
        BashLine.submit (dirOut ++ "interm/bash/" ++ i) true ∈
          dispatchScript dirOut subs := by
  have hgl : subs.getLast? = some (subs.getLast h) :=
    List.getLast?_eq_getLast subs h
  have hlen : 1 ≤ subs.length := List.length_pos.mpr h
  refine ⟨?_, ?_, ?_⟩
  · simp only [dispatchScript, hgl, List.filter_append, List.length_append]
    rw [List.filter_map]
    simp [isSubmit, Function.comp_def, List.length_dropLast]
    omega
  · simp only [dispatchScript, hgl, List.filter_append]
    rw [List.filter_map]
    simp [isBlockingSubmit, Function.comp_def]
  · intro i hi
    simp only [dispatchScript, hgl, List.mem_append]
    exact Or.inl (Or.inr (List.mem_map.mpr ⟨i, hi, rfl⟩))

/-- C5 witness: with batches `["a", "b"]` there are two submissions and the
only blocking one is for `"b"`, the last batch. -/
theorem dispatchScript_lastBlocks_witness :
    ((dispatchScript "d/" ["a", "b"]).filter isSubmit).length = 2 ∧
      (dispatchScript "d/" ["a", "b"]).filter isBlockingSubmit =
        [BashLine.submit ("d/" ++ "interm/bash/" ++ "b") false] :=
  ⟨(dispatchScript_lastBlocks "d/" ["a", "b"] (by decide)).1,
   (dispatchScript_lastBlocks "d/" ["a", "b"] (by decide)).2.1⟩

/-- xarray `.sel(lat=slice(latHi, latLo), lon=slice(lonLo, lonHi))` on an
array with descending latitudes and ascending longitudes: label slicing is
inclusive of both endpoints and keeps exactly the coordinates inside the
closed intervals, so on monotonic coordinates it is a filter on the
coordinate lists with the value grid cut down accordingly. -/
def selBox (ds : DSet) (latHi latLo lonLo lonHi : ℚ) : DSet where
  lat := ds.lat.filter fun x => decide (latLo ≤ x) && decide (x ≤ latHi)
  lon := ds.lon.filter fun y => decide (lonLo ≤ y) && decide (y ≤ lonHi)
  vals :=
    ((ds.lat.zip ds.vals).filter fun p =>
        decide (latLo ≤ p.1) && decide (p.1 ≤ latHi)).map fun p =>
      ((ds.lon.zip p.2).filter fun q =>
          decide (lonLo ≤ q.1) && decide (q.1 ≤ lonHi)).map Prod.snd

/-- `_make_tile`: crops the target and the source array to the
overlap-padded tile window `.sel(lat=slice(latmax+olap, latmin-olap),
lon=slice(lonmin-olap, lonmax+olap))` and writes each slice as a netcdf file.
xarray `.sel` returns an empty selection rather than raising when no
coordinate falls inside the window, and `to_netcdf` writes zero-sized arrays
without error, so the source has no failure branch at all: the embedding
always returns `Except.ok` with the pair of written slices. -/
def makeTile (daTarget daSource : DSet) (olap : ℚ) (c : Tile) :
    Except String (DSet × DSet) :=
  Except.ok
    (selBox daTarget (c.latMax + olap) (c.latMin - olap) (c.lonMin - olap)
      (c.lonMax + olap),
     selBox daSource (c.latMax + olap) (c.latMin - olap) (c.lonMin - olap)
      (c.lonMax + olap))

/-- Did the tile export complete without raising? -/
def isOkB : Except String (DSet × DSet) → Bool
  | Except.ok _ => true
  | Except.error _ => false

/-- C6 counterexample: a tile whose padded window contains no cell of either
grid (grids at latitude and longitude 50, tile `[-90,-60]x[-180,-150]`,
overlap 2) — `_make_tile` nevertheless succeeds: both `.sel` selections are
empty and the export completes, contradicting the claim that it fails
loudly. -/
theorem makeTile_emptyWindow_noFail_cex :
    (selBox ⟨[50], [50], [[some 1]]⟩ ((-60 : ℚ) + 2) ((-90 : ℚ) - 2)
        ((-180 : ℚ) - 2) ((-150 : ℚ) + 2)).lat = [] ∧
      isOkB (makeTile ⟨[50], [50], [[some 1]]⟩ ⟨[50], [50], [[some 1]]⟩ 2
          ⟨-90, -60, -180, -150⟩) = true := by
  refine ⟨?_, rfl⟩
  norm_num [selBox, List.filter_cons]

/-- C6 amended: when the padded window
`[latMin-olap, latMax+olap] x [lonMin-olap, lonMax+olap]` contains no cell of
the target grid or no cell of the source grid, `_make_tile` does not fail: it
succeeds, writing empty slice files (the code has no defensive check). -/
theorem makeTile_emptyWindow_succeeds (daTarget daSource : DSet) (olap : ℚ)
    (c : Tile)
    (h : (selBox daTarget (c.latMax + olap) (c.latMin - olap)
            (c.lonMin - olap) (c.lonMax + olap)).lat = [] ∨
         (selBox daTarget (c.latMax + olap) (c.latMin - olap)
            (c.lonMin - olap) (c.lonMax + olap)).lon = [] ∨
         (selBox daSource (c.latMax + olap) (c.latMin - olap)
            (c.lonMin - olap) (c.lonMax + olap)).lat = [] ∨
         (selBox daSource (c.latMax + olap) (c.latMin - olap)
            (c.lonMin - olap) (c.lonMax + olap)).lon = []) :
    isOkB (makeTile daTarget daSource olap c) = true := rfl

/-- C6 amended witness: a target grid with no cells at all trivially has an
empty padded window, and the export still succeeds. -/
theorem makeTile_emptyWindow_succeeds_witness :
    isOkB (makeTile ⟨[], [], []⟩ ⟨[50], [50], [[some 1]]⟩ 2
        ⟨-90, -60, -180, -150⟩) = true :=
  makeTile_emptyWindow_succeeds ⟨[], [], []⟩
    ⟨[50], [50], [[some 1]]⟩ 2 ⟨-90, -60, -180, -150⟩ (Or.inl rfl)

/-- A file written by the export stage. -/
inductive ExportFile where
  | zarr (path : String) : ExportFile
  | tif (path : String) : ExportFile
  | netcdf (path : String) : ExportFile
deriving DecidableEq, Repr

/-- The format dispatch at the end of `_export_regridded` (lines 335-349):
three independent `if type_export == ...:` blocks with no `else` and no check
before them; a `type_export` outside the three recognized values falls
through every block and the function returns normally having written nothing.
The source has no error path for the format, so the `Except.error`
constructor of the embedding is never used. -/
def exportDispatch (dirOut fStr typeExport : String) :
    Except String (List ExportFile) :=
  Except.ok <|
    (if typeExport = "zarr" then
      [ExportFile.zarr (dirOut ++ "ds_regridded_" ++ fStr ++ ".zarr")]
     else []) ++
    (if typeExport = "tif" then
      [ExportFile.tif (dirOut ++ "ds_regridded_" ++ fStr ++ ".tif")]
     else []) ++
    (if typeExport = "netcdf" then
      [ExportFile.netcdf (dirOut ++ "ds_regridded_" ++ fStr ++ ".nc")]
     else [])

/-- C7 counterexample: `type_export = "csv"` is outside the supported set, yet
the export step completes normally (no configuration error) and writes
nothing, contradicting the claim that it fails. -/
theorem exportDispatch_unsupported_noFail_cex :
    exportDispatch "o/" "v" "csv" = Except.ok [] ∧
      ("csv" : String) ∉ (["zarr", "tif", "netcdf"] : List String) := by
  constructor
  · rfl
  · decide

/-- C7 amended: for every `type_export` outside
`{"zarr", "tif", "netcdf"}` the export step completes without error and
writes no output file (a silent no-op rather than a configuration error). -/
theorem exportDispatch_unsupported_noop (dirOut fStr t : String)
    (h : t ∉ (["zarr", "tif", "netcdf"] : List String)) :
    exportDispatch dirOut fStr t = Except.ok [] := by
  simp only [List.mem_cons, List.not_mem_nil, or_false, not_or] at h
  obtain ⟨h1, h2, h3⟩ := h
  simp [exportDispatch, h1, h2, h3]

/-- C7 amended witness: `type_export = "hdf5"` silently writes nothing. -/
theorem exportDispatch_unsupported_noop_witness :
    exportDispatch "o/" "v" "hdf5" = Except.ok [] :=
  exportDispatch_unsupported_noop "o/" "v" "hdf5" (by decide)

/-- Value of a dataset at coordinate pair `(la, lo)`: the cell of the first
row whose latitude equals `la`, at the first column whose longitude equals
`lo`; `none` when the coordinate is absent or the cell itself is missing. -/
def lookupCell (ds : DSet) (la lo : ℚ) : Option ℚ :=
  match (ds.lat.zip ds.vals).find? (fun p => decide (p.1 = la)) with
  | none => none
  | some p =>
    match (ds.lon.zip p.2).find? (fun q => decide (q.1 = lo)) with
    | none => none
    | some q => q.2

/-- Insertion into an ascending list, for the coordinate ordering
`xr.combine_by_coords` produces. -/
def insertAsc (x : ℚ) : List ℚ → List ℚ
  | [] => [x]
  | y :: ys => if x ≤ y then x :: y :: ys else y :: insertAsc x ys

/-- Ascending insertion sort. -/
def sortAsc (l : List ℚ) : List ℚ :=
  l.foldr insertAsc []

/-- `xr.combine_by_coords(list_tiles, compat='no_conflicts',
combine_attrs='drop')`: the combined coordinates are the deduplicated union
of the tiles' coordinates in monotonic order, and each cell takes the value
of the first tile defining that coordinate pair (tiles never disagree in
actual use: they all come from the same regridding). -/
def combineByCoords (tiles : List DSet) : DSet :=
  let lats := sortAsc (tiles.bind (fun t => t.lat)).dedup
  let lons := sortAsc (tiles.bind (fun t => t.lon)).dedup
  { lat := lats
    lon := lons
    vals := lats.map fun la => lons.map fun lo =>
      (tiles.map fun t => lookupCell t la lo).foldl (fun acc c => acc <|> c)
        none }

/-- `.drop_duplicates(['lat', 'lon'])`: keep the first occurrence of each
coordinate value along both axes. -/
def dropDuplicatesDS (ds : DSet) : DSet :=
  let lats := ds.lat.dedup
  let lons := ds.lon.dedup
  { lat := lats
    lon := lons
    vals := lats.map fun la => lons.map fun lo => lookupCell ds la lo }

/-- `.reindex_like(da_target)`: conform the dataset onto exactly the target's
coordinate vectors, filling coordinates the dataset does not cover with
missing values. -/
def reindexLike (daTarget ds : DSet) : DSet :=
  { lat := daTarget.lat
    lon := daTarget.lon
    vals := daTarget.lat.map fun la => daTarget.lon.map fun lo =>
      lookupCell ds la lo }

/-- `_prep_tiles_regridded`: re-parses the tile bounds from the output
filename and crops the regridded tile back to its unpadded window via
`.sel(lat=slice(latmax, latmin), lon=slice(lonmin, lonmax))` (the
`spatial_ref` drop has no counterpart in the embedding). In the source the
bounds travel through the filename; here they accompany the dataset as a
`Tile`. -/
def prepTilesRegridded (t : Tile) (ds : DSet) : DSet :=
  selBox ds t.latMax t.latMin t.lonMin t.lonMax

/-- `_combine_tiles_regridded`: open the regridded tiles, crop each back to
its unpadded bounds, combine by coordinates, drop duplicate coordinates, and
reindex onto the exact coordinate vectors of the target (the variable rename
to `regridded_<name>` and the rechunking touch no coordinates and are not
modelled). -/
def combineTilesRegridded (daTarget : DSet) (tiles : List (Tile × DSet)) :
    DSet :=
  reindexLike daTarget
    (dropDuplicatesDS
      (combineByCoords (tiles.map fun p => prepTilesRegridded p.1 p.2)))

/-- numpy truncation toward zero, the effect of `astype` to an integer dtype
on a finite value. -/
def truncQ (x : ℚ) : ℚ :=
  if 0 ≤ x then ((Rat.floor x : ℤ) : ℚ) else -((Rat.floor (-x) : ℤ) : ℚ)

/-- The dtype of the original source variable, as used by
`.astype(da_source.dtype)`: a floating dtype keeps finite values unchanged,
an integer dtype truncates toward zero. -/
inductive Dtype where
  | float64 : Dtype
  | int64 : Dtype
deriving DecidableEq, Repr

/-- `astype` on one finite cell value. -/
def castVal : Dtype → ℚ → ℚ
  | Dtype.float64, x => x
  | Dtype.int64, x => truncQ x

/-- One cell of `xr.where(np.isnan(ds), fill_value, ds).astype(dtype)`:
missing cells become the fill value, then the cast applies to every cell. -/
def finalizeCell (fill : ℚ) (d : Dtype) : Option ℚ → ℚ
  | none => castVal d fill
  | some v => castVal d v

/-- The finalize step of `_export_regridded` (lines 329-330): replace every
NaN cell by `fill_value`, then cast the whole array back to the source
dtype. Every cell of the result is present (non-NaN). -/
def finalizeDS (ds : DSet) (fill : ℚ) (d : Dtype) : DSet :=
  { lat := ds.lat
    lon := ds.lon
    vals := ds.vals.map fun row => row.map fun c =>
      some (finalizeCell fill d c) }

/-- The cell of a dataset at row index `i`, column index `j` (outer `none`
when out of range, inner `none` when the cell is missing). -/
def cellAt (ds : DSet) (i j : ℕ) : Option (Option ℚ) :=
  (ds.vals[i]?).bind fun row => row[j]?

/-- The source restriction at the top of `regrid_high_res` (lines 374-377):
`da_source.sel(lat=slice(max(da_target.lat.data), min(da_target.lat.data)),
lon=slice(min(da_target.lon.data), max(da_target.lon.data)))`. -/
def restrictSourceToTarget (daTarget daSource : DSet) : DSet :=
  selBox daSource (pyMax daTarget.lat) (pyMin daTarget.lat)
    (pyMin daTarget.lon) (pyMax daTarget.lon)

/-- The tiling stage downstream of the restriction: the tile list selected by
`_make_cases_list_source` and the slice pairs exported by `_make_tiles` /
`_make_tile` (the `.chunk(...).persist()` calls move data, not
coordinates). -/
def makeTiles (daTarget daSource : DSet) (sizeTiles : ℕ) (olap : ℚ) :
    List Tile × List (Except String (DSet × DSet)) :=
  let cases := makeCasesListSource daSource sizeTiles
  (cases, cases.map fun c => makeTile daTarget daSource olap c)

/-- The whole `regrid_high_res` data path as a function of the input arrays,
with the external cdo `remapycon` call abstracted as an arbitrary per-tile
function `remap` from the exported (target-slice, source-slice) pair to the
regridded tile: restriction, tile selection, per-tile export, remap, crop,
combine, reindex, fill, cast. -/
def pipelineOutput (remap : DSet × DSet → DSet) (daTarget daSource : DSet)
    (sizeTiles : ℕ) (olap fill : ℚ) (d : Dtype) : DSet :=
  let src := restrictSourceToTarget daTarget daSource
  let cases := makeCasesListSource src sizeTiles
  let tiles := cases.map fun c =>
    (c, remap
      (selBox daTarget (c.latMax + olap) (c.latMin - olap) (c.lonMin - olap)
        (c.lonMax + olap),
       selBox src (c.latMax + olap) (c.latMin - olap) (c.lonMin - olap)
        (c.lonMax + olap)))
  finalizeDS (combineTilesRegridded daTarget tiles) fill d

end Regrid

namespace Regrid

/-- C2: the combine step ends in `.reindex_like(da_target)`, so for every
target grid and every collection of regridded tiles — in particular those
obtained from a source grid whose extent is a subset or a superset of the
target's — the lat and lon coordinate vectors of the combined dataset (and of
the finalized dataset exported from it) equal the target grid's coordinate
vectors exactly. -/
theorem combineTilesRegridded_roundtrip_coords (daTarget : DSet)
    (tiles : List (Tile × DSet)) (fill : ℚ) (d : Dtype) :
    (combineTilesRegridded daTarget tiles).lat = daTarget.lat ∧
      (combineTilesRegridded daTarget tiles).lon = daTarget.lon ∧
      (finalizeDS (combineTilesRegridded daTarget tiles) fill d).lat =
        daTarget.lat ∧
      (finalizeDS (combineTilesRegridded daTarget tiles) fill d).lon =
        daTarget.lon :=
  ⟨rfl, rfl, rfl, rfl⟩

/-- `truncQ` evaluates to an integer cast. -/
theorem truncQ_exists_int (x : ℚ) : ∃ m : ℤ, truncQ x = (m : ℚ) := by
  unfold truncQ
  split
  · exact ⟨Rat.floor x, rfl⟩
  · exact ⟨-Rat.floor (-x), by push_cast; ring⟩

/-- `Rat.floor` is the floor of `ℚ`. -/
theorem ratFloor_intCast (m : ℤ) : Rat.floor ((m : ℤ) : ℚ) = m := by
  have h : Rat.floor ((m : ℤ) : ℚ) = ⌊((m : ℤ) : ℚ)⌋ := rfl
  rw [h, Int.floor_intCast]

theorem truncQ_intCast (m : ℤ) : truncQ ((m : ℤ) : ℚ) = ((m : ℤ) : ℚ) := by
  unfold truncQ
  by_cases h : (0 : ℚ) ≤ (m : ℚ)
  · rw [if_pos h, ratFloor_intCast]
  · rw [if_neg h, show -((m : ℚ)) = (((-m : ℤ)) : ℚ) by push_cast; ring,
      ratFloor_intCast]
    push_cast
    ring

theorem truncQ_idem (x : ℚ) : truncQ (truncQ x) = truncQ x := by
  obtain ⟨m, hm⟩ := truncQ_exists_int x
  rw [hm, truncQ_intCast]

theorem castVal_idem (d : Dtype) (x : ℚ) :
    castVal d (castVal d x) = castVal d x := by
  cases d
  · rfl
  · exact truncQ_idem x

theorem finalizeCell_idem (fill : ℚ) (d : Dtype) (c : Option ℚ) :
    finalizeCell fill d (some (finalizeCell fill d c)) =
      finalizeCell fill d c := by
  cases c <;> simp [finalizeCell, castVal_idem]

/-- C3 amended: every cell of the finalized output is the source-dtype cast
of the corresponding original cell, or the cast of `fillValue` where the
original cell was missing (for a value-preserving dtype this is exactly the
original value or `fillValue`; a narrowing integer cast may truncate — see
the counterexample); and re-running finalize on its own output with the same
`fillValue` yields an identical dataset. -/
theorem finalize_cells_and_idempotent (ds : DSet) (fill : ℚ) (d : Dtype)
    (i j : ℕ) (c : Option ℚ) (h : cellAt ds i j = some c) :
    cellAt (finalizeDS ds fill d) i j =
        some (some (finalizeCell fill d c)) ∧
      (c = none → finalizeCell fill d c = castVal d fill) ∧
      (∀ v, c = some v → finalizeCell fill d c = castVal d v) ∧
      finalizeDS (finalizeDS ds fill d) fill d = finalizeDS ds fill d := by
  refine ⟨?_, ?_, ?_, ?_⟩
  · unfold cellAt at h ⊢
    unfold finalizeDS
    simp only [List.getElem?_map]
    cases hv : ds.vals[i]? with
    | none => rw [hv] at h; simp at h
    | some row =>
      rw [hv] at h
      change row[j]? = some c at h
      change (row.map fun c0 => some (finalizeCell fill d c0))[j]? = _
      rw [List.getElem?_map, h]
      rfl
  · rintro rfl; rfl
  · rintro v rfl; rfl
  · simp [finalizeDS, List.map_map, Function.comp_def, finalizeCell_idem]

/-- C3 amended witness: a dataset with the single present cell `5/2`,
fill value 7, integer dtype. -/
theorem finalize_cells_and_idempotent_witness :
    cellAt (finalizeDS ⟨[0], [0], [[some (Rat.divInt 5 2)]]⟩ 7 Dtype.int64)
        0 0 =
      some (some (finalizeCell 7 Dtype.int64 (some (Rat.divInt 5 2)))) ∧
    finalizeDS
        (finalizeDS ⟨[0], [0], [[some (Rat.divInt 5 2)]]⟩ 7 Dtype.int64) 7
        Dtype.int64 =
      finalizeDS ⟨[0], [0], [[some (Rat.divInt 5 2)]]⟩ 7 Dtype.int64 :=
  ⟨(finalize_cells_and_idempotent ⟨[0], [0], [[some (Rat.divInt 5 2)]]⟩ 7
      Dtype.int64 0 0 (some (Rat.divInt 5 2)) rfl).1,
   (finalize_cells_and_idempotent ⟨[0], [0], [[some (Rat.divInt 5 2)]]⟩ 7
      Dtype.int64 0 0 (some (Rat.divInt 5 2)) rfl).2.2.2⟩

/-- C3 counterexample: with integer source dtype, the merged cell `5/2` and
fill value 0 finalize to the cell `2`, which is neither the original tile
value `5/2` nor the fill value `0` — refuting "no other value appears". -/
theorem finalize_nonOriginal_cell_cex :
    finalizeDS ⟨[0], [0], [[some (Rat.divInt 5 2)]]⟩ 0 Dtype.int64 =
        ⟨[0], [0], [[some 2]]⟩ ∧
      ¬ ((2 : ℚ) = Rat.divInt 5 2 ∨ (2 : ℚ) = 0) := by
  constructor
  · decide
  · decide

/-- C10: the source restriction `regrid_high_res` applies before any tiling
keeps only source coordinates inside the target grid's bounding box, and the
whole downstream pipeline — tile selection, exported tile slices, and (for
any behaviour of the external remap tool) the final output — depends on the
source only through that restriction: two sources with equal restrictions
yield identical tiles and identical final output. -/
theorem source_restricted_to_target_extent (daTarget s1 s2 : DSet)
    (sizeTiles : ℕ) (olap fill : ℚ) (d : Dtype)
    (remap : DSet × DSet → DSet)
    (hagree : restrictSourceToTarget daTarget s1 =
      restrictSourceToTarget daTarget s2) :
    (∀ x ∈ (restrictSourceToTarget daTarget s1).lat,
        pyMin daTarget.lat ≤ x ∧ x ≤ pyMax daTarget.lat) ∧
      (∀ y ∈ (restrictSourceToTarget daTarget s1).lon,
        pyMin daTarget.lon ≤ y ∧ y ≤ pyMax daTarget.lon) ∧
      makeTiles daTarget (restrictSourceToTarget daTarget s1) sizeTiles
          olap =
        makeTiles daTarget (restrictSourceToTarget daTarget s2) sizeTiles
          olap ∧
      pipelineOutput remap daTarget s1 sizeTiles olap fill d =
        pipelineOutput remap daTarget s2 sizeTiles olap fill d := by
  refine ⟨?_, ?_, ?_, ?_⟩
  · intro x hx
    simp only [restrictSourceToTarget, selBox, List.mem_filter,
      Bool.and_eq_true, decide_eq_true_eq] at hx
    exact hx.2
  · intro y hy
    simp only [restrictSourceToTarget, selBox, List.mem_filter,
      Bool.and_eq_true, decide_eq_true_eq] at hy
    exact hy.2
  · rw [hagree]
  · unfold pipelineOutput
    rw [hagree]

/-- C10 witness: a source extended by an extra row at latitude 99, outside
the target extent, restricts to the same array and produces the identical
final output. -/
theorem source_restricted_to_target_extent_witness :
    pipelineOutput (fun p => p.2) ⟨[10], [0], [[some 1]]⟩ ⟨[10], [0],
        [[some 2]]⟩ 30 2 0 Dtype.float64 =
      pipelineOutput (fun p => p.2) ⟨[10], [0], [[some 1]]⟩ ⟨[10, 99],
        [0], [[some 2], [some 3]]⟩ 30 2 0 Dtype.float64 :=
  (source_restricted_to_target_extent ⟨[10], [0], [[some 1]]⟩ ⟨[10], [0],
      [[some 2]]⟩ ⟨[10, 99], [0], [[some 2], [some 3]]⟩ 30 2 0 Dtype.float64
      (fun p => p.2) (by decide)).2.2.2

end Regrid
